import Mathlib

/-!
Shallow embedding of `src/fu/ppt.py` (class `PPTXSlides`).

The native python-pptx object graph is modelled by `Shape` and `Slide`
structures whose Boolean fields record the duck-typed `hasattr` probes the
Python code performs.  Python dictionaries keyed by slide index become
association lists over `Int` (Python integers can be negative, and
`extract_table_from_slide` can cache under a negative key).  Python list
indexing, including negative wrap-around and `IndexError`, is modelled by
`pyGet`.  Methods that can raise an uncaught exception return
`Except String`; all other methods are total functions on an explicit
session state `PState`.
-/

set_option linter.unusedVariables false

namespace PPT

/-- Association-list lookup, modelling Python dict membership test and `d[k]`. -/
def dlookup {κ α : Type} [DecidableEq κ] : List (κ × α) → κ → Option α
  | [], _ => none
  | p :: rest, k => if p.1 = k then some p.2 else dlookup rest k

/-- Association-list insert, modelling Python `d[k] = v`: overwrite in place
when the key is present, append otherwise (Python dicts keep insertion order). -/
def dinsert {κ α : Type} [DecidableEq κ] : List (κ × α) → κ → α → List (κ × α)
  | [], k, v => [(k, v)]
  | p :: rest, k, v => if p.1 = k then (k, v) :: rest else p :: dinsert rest k v

/-- Python `s.lower()`. -/
def pyToLower (s : String) : String := ⟨s.data.map Char.toLower⟩

/-- Python `s.startswith(pre)`. -/
def pyStartsWith (s pre : String) : Bool := pre.data.isPrefixOf s.data

/-- Python `s.replace(c, r)` for a one-character pattern and replacement
(the only form `ppt.py` uses, at line 315). -/
def pyReplaceChar (c r : Char) (s : String) : String :=
  ⟨s.data.map (fun x => if x = c then r else x)⟩

/-- Occurrence scan for the Python substring test `sub in s`. -/
def listContainsChars (pat : List Char) : List Char → Bool
  | [] => pat.isEmpty
  | c :: rest => pat.isPrefixOf (c :: rest) || listContainsChars pat rest

/-- Python substring test `sub in s`. -/
def pyContains (s sub : String) : Bool := listContainsChars sub.data s.data

/-- Python list indexing `xs[i]`: a nonnegative index reads directly, a negative
index wraps by the list length, anything else raises `IndexError` (`none`). -/
def pyGet {α : Type} (xs : List α) (i : Int) : Option α :=
  if 0 ≤ i then xs.get? i.toNat
  else if 0 ≤ (xs.length : Int) + i then xs.get? ((xs.length : Int) + i).toNat
  else none

/-- One native shape, with the duck-typed attributes `ppt.py` probes:
`hasText` models `hasattr(shape, "text")`, `hasIsTitle` models
`hasattr(shape, "is_title")`, `hasTextFrame` models
`hasattr(shape, "text_frame")`, `tfHasText` models
`hasattr(shape.text_frame, "text")`, `shapeType` models `shape.shape_type`,
and `table` is the native table grid (row-major cell texts) when the shape
is a table shape. -/
structure Shape where
  hasText : Bool
  text : String
  hasIsTitle : Bool
  is_title : Bool
  hasTextFrame : Bool
  tfHasText : Bool
  tfText : String
  shapeType : String
  table : List (List String)
  deriving Repr, DecidableEq, Inhabited

/-- The shape-type constant `MSO_SHAPE_TYPE.TABLE` compared against in `ppt.py`. -/
def msoTable : String := "TABLE (19)"

/-- One native slide: its ordered shapes and its layout name.  `hasLayout`
models the conjunction `hasattr(slide, "slide_layout") and
hasattr(slide.slide_layout, "name")`, which the Python code always tests
together. -/
structure Slide where
  shapes : List Shape
  hasLayout : Bool
  layoutName : String
  deriving Repr, DecidableEq, Inhabited

/-- Row count of a native table: `len(table.rows)`. -/
def tblRows (t : List (List String)) : Nat := t.length

/-- Column count of a native table: `len(table.columns)`; python-pptx tables
are rectangular, so this is the length of the first row. -/
def tblCols (t : List (List String)) : Nat := (t.headD []).length

/-- Row-major grid built from one native table shape, ppt.py lines 310-317:
for every row and column, `cell(r, c).text` with newlines replaced by spaces. -/
def tableGrid (t : List (List String)) : List (List String) :=
  (List.range (tblRows t)).map (fun r =>
    (List.range (tblCols t)).map (fun c => pyReplaceChar '\n' ' ' ((t.getD r []).getD c "")))

/-- The title-resolution loop of `extract_metadata_from_slide`, ppt.py lines
264-270.  The accumulator is the current `slide_title`; a shape with text that
is a title wins and stops the scan, otherwise the text of a shape is taken
only while the current title is still the literal string "Untitled". -/
def titleGo : List Shape → String → String
  | [], t => t
  | sh :: rest, t =>
    if sh.hasText ∧ sh.text ≠ "" then
      if sh.hasIsTitle ∧ sh.is_title then sh.text
      else if t = "Untitled" then titleGo rest sh.text
      else titleGo rest t
    else titleGo rest t

/-- Resolved slide title, starting from the default "Untitled" (ppt.py line 263). -/
def resolveTitle (shapes : List Shape) : String := titleGo shapes "Untitled"

/-- The metadata dictionary returned by `extract_metadata_from_slide`. -/
structure SlideMeta where
  slide_number : Int
  layout_name : String
  title : String
  shape_counts : List (String × Nat)
  total_shapes : Nat
  deriving Repr, DecidableEq

/-- The shape-count loop of `extract_metadata_from_slide`, ppt.py lines 271-277. -/
def countShapes : List Shape → List (String × Nat) → List (String × Nat)
  | [], acc => acc
  | sh :: rest, acc =>
    match dlookup acc sh.shapeType with
    | some n => countShapes rest (dinsert acc sh.shapeType (n + 1))
    | none => countShapes rest (dinsert acc sh.shapeType 1)

/-- `extract_metadata_from_slide`, ppt.py lines 247-285 (pure: builds and
returns the metadata dictionary, no state is touched). -/
def extract_metadata_from_slide (slide : Slide) (index : Int) : SlideMeta :=
  { slide_number := index + 1
    layout_name := if slide.hasLayout then slide.layoutName else "Unknown"
    title := resolveTitle slide.shapes
    shape_counts := countShapes slide.shapes []
    total_shapes := slide.shapes.length }

/-- Per-shape test of the first loop in `_identify_summary_slides`, ppt.py
lines 214-221: the shape has a nonempty `text` attribute and either the
is-title branch or the plain branch fires; both require the lowercased text
to start with "summary", so the flag is set (and the loop breaks) exactly
when this predicate holds. -/
def shapeTextStartsSummary (sh : Shape) : Bool :=
  sh.hasText && (sh.text != "") &&
    ((sh.hasIsTitle && sh.is_title && pyStartsWith (pyToLower sh.text) "summary") ||
     pyStartsWith (pyToLower sh.text) "summary")

/-- Second loop of `_identify_summary_slides`, ppt.py lines 222-225: does any
shape have `shape_type == MSO_SHAPE_TYPE.TABLE`. -/
def slideHasTable (s : Slide) : Bool := s.shapes.any (fun sh => sh.shapeType == msoTable)

/-- Combined per-slide condition of `_identify_summary_slides`, ppt.py line 226. -/
def slideIsSummary (s : Slide) : Bool :=
  s.shapes.any shapeTextStartsSummary && slideHasTable s

/-- Index-accumulating loop of `_identify_summary_slides`, ppt.py lines 211-227. -/
def ssGo : List Slide → Nat → List Nat
  | [], _ => []
  | s :: rest, i => if slideIsSummary s then i :: ssGo rest (i + 1) else ssGo rest (i + 1)

/-- `_identify_summary_slides`, ppt.py lines 201-228. -/
def identify_summary_slides (slides : List Slide) : List Nat := ssGo slides 0

/-- Section title read by `_identify_section_header_slides`, ppt.py lines
188-189: the text-frame text of the shape at index 0, if that shape exists and
has the text-frame capabilities; otherwise the empty string. -/
def sectionTitleOf (shapes : List Shape) : String :=
  match shapes.get? 0 with
  | some sh => if sh.hasTextFrame ∧ sh.tfHasText then sh.tfText else ""
  | none => ""

/-- Section summary read, ppt.py lines 190-191: same for the shape at index 1. -/
def sectionSummaryOf (shapes : List Shape) : String :=
  match shapes.get? 1 with
  | some sh => if sh.hasTextFrame ∧ sh.tfHasText then sh.tfText else ""
  | none => ""

/-- Layout test of `_identify_section_header_slides`, ppt.py lines 178-179. -/
def isSectionHeader (s : Slide) : Bool := s.hasLayout && (s.layoutName == "Section Header")

/-- Main loop of `_identify_section_header_slides`, ppt.py lines 177-197:
collects section-header indices and writes each entry into
`self.section_summaries` (the dictionary accumulator). -/
def shGo : List Slide → Nat → List (Int × String × String) →
    List Nat × List (Int × String × String)
  | [], _, d => ([], d)
  | s :: rest, i, d =>
    if isSectionHeader s then
      let r := shGo rest (i + 1)
        (dinsert d (i : Int) (sectionTitleOf s.shapes, sectionSummaryOf s.shapes))
      (i :: r.1, r.2)
    else shGo rest (i + 1) d

/-- `_identify_section_header_slides`, ppt.py lines 166-199.  The method also
reads and updates `self.section_summaries`, so it takes the current dictionary
and returns the index list together with the updated dictionary. -/
def identify_section_header_slides (slides : List Slide)
    (summaries : List (Int × String × String)) :
    List Nat × List (Int × String × String) :=
  shGo slides 0 summaries

/-- Slide indices for which `load_presentation` invokes
`extract_metadata_from_slide`.  The only invocation anywhere during load is
the print at ppt.py line 181 inside `_identify_section_header_slides`, which
runs once per slide whose layout matches "Section Header"; no other load-time
code touches metadata extraction, and no metadata list is stored. -/
def loadMetadataCalls (slides : List Slide) : List Nat :=
  (identify_section_header_slides slides []).1

/-- Title-slide loop of `load_presentation`, ppt.py lines 128-131: indices
above 0 whose layout name contains "title" case-insensitively. -/
def titleSlidesGo : List Slide → Nat → List Nat
  | [], _ => []
  | s :: rest, i =>
    if 0 < i ∧ s.hasLayout ∧ pyContains (pyToLower s.layoutName) "title" then
      i :: titleSlidesGo rest (i + 1)
    else titleSlidesGo rest (i + 1)

/-- Session state of a `PPTXSlides` object: the fields set up in `__init__`,
ppt.py lines 28-37 (the presentation handle and file path carry no
information the claims need). -/
structure PState where
  slides : List Slide
  title_slides : List Nat
  summary_slides : List Nat
  section_header : List Nat
  section_summaries : List (Int × String × String)
  summary_tables : List (Int × List (List (List String)))
  deriving Repr, DecidableEq, Inhabited

/-- `PPTXSlides(file_path)` on the success path: `__init__` (empty state)
followed by `load_presentation`, ppt.py lines 102-141.  File-system checks and
the parse of the container are outside the model; `slides` is the parsed
slide list. -/
def load_presentation (slides : List Slide) : PState :=
  { slides := slides
    title_slides := 0 :: titleSlidesGo slides 0
    section_header := (identify_section_header_slides slides []).1
    section_summaries := (identify_section_header_slides slides []).2
    summary_slides := identify_summary_slides slides
    summary_tables := [] }

/-- Grids of all table shapes on a slide, in shape order (the shape loop of
`extract_table_from_slide`, ppt.py lines 307-318). -/
def extractTables (s : Slide) : List (List (List String)) :=
  (s.shapes.filter (fun sh => sh.shapeType == msoTable)).map (fun sh => tableGrid sh.table)

/-- `extract_table_from_slide`, ppt.py lines 287-324.  Rejects only
`index >= len(self.slides)` (returning an empty list); then indexes
`self.slides[index]` Python-style, so a negative index in range wraps and one
below `-len` raises an uncaught `IndexError` (the `.error` case).  When at
least one grid is found it is stored in `self.summary_tables[index]`. -/
def extract_table_from_slide (st : PState) (index : Int) :
    Except String (List (List (List String)) × PState) :=
  if ((st.slides.length : Int)) ≤ index then .ok ([], st)
  else
    match pyGet st.slides index with
    | none => .error "IndexError"
    | some slide =>
      -- line 305 computes slide_title via extract_metadata_from_slide for a
      -- print only; extract_metadata_from_slide is pure, so no state effect
      if extractTables slide = [] then .ok (extractTables slide, st)
      else .ok (extractTables slide,
        { st with summary_tables := dinsert st.summary_tables index (extractTables slide) })

/-- `get_summary_table`, ppt.py lines 330-357: `None` (here `none`) on an
invalid index, otherwise extract when the cache has no entry for the index,
then return the cached grids when present. -/
def get_summary_table (st : PState) (index : Int) :
    Except String (Option (List (List (List String))) × PState) :=
  if ¬ (0 ≤ index ∧ index < (st.slides.length : Int)) then .ok (none, st)
  else
    -- line 346 computes slide_title via extract_metadata_from_slide for the
    -- cache-miss warning only; extract_metadata_from_slide is pure
    match (if (dlookup st.summary_tables index).isNone
           then extract_table_from_slide st index
           else .ok ([], st)) with
    | .error e => .error e
    | .ok (_, st1) =>
      match dlookup st1.summary_tables index with
      | some tabs => .ok (some tabs, st1)
      | none => .ok (none, st1)

/-- Cache-filling step of `set_summary_table`, ppt.py lines 440-444: when the
index has no cache entry, run extraction; `.ok (none, _)` is the early
`return False` when extraction found no tables. -/
def ensureTables (st : PState) (index : Int) : Except String (Option Unit × PState) :=
  if (dlookup st.summary_tables index).isSome then .ok (some (), st)
  else
    match extract_table_from_slide st index with
    | .error e => .error e
    | .ok (tables, st1) => if tables = [] then .ok (none, st1) else .ok (some (), st1)

/-- In-place update of the first table shape of a shape list, modelling the
native write `shape.table.cell(row, col).text = new_text` on the first shape
of type TABLE (the loop of ppt.py lines 465-472 returns inside its first
matching iteration). -/
def updateFirstTableShape (shapes : List Shape) (r c : Nat) (t : String) : List Shape :=
  match shapes with
  | [] => []
  | sh :: rest =>
    if sh.shapeType == msoTable then
      { sh with table := sh.table.set r ((sh.table.getD r []).set c t) } :: rest
    else sh :: updateFirstTableShape rest r c t

/-- Native-slide mutation produced by a successful native cell write. -/
def setNativeCell (slides : List Slide) (i r c : Nat) (t : String) : List Slide :=
  slides.set i
    (let s := slides.getD i default
     { s with shapes := updateFirstTableShape s.shapes r c t })

/-- `set_summary_table`, ppt.py lines 421-475.  Validates the slide index,
fills the cache when needed, bounds-checks `row` and `col` against the first
cached grid, mutates the in-memory grid, then attempts the native write on
the first table shape: success returns `true`; a native `IndexError` (row or
column outside the native table) is caught and returns `false` with the
in-memory mutation kept; no table shape at all logs and returns `true`.
The unreachable dictionary miss after a successful fill is the KeyError case. -/
def set_summary_table (st : PState) (index row col : Int) (new_text : String) :
    Except String (Bool × PState) :=
  if ¬ (0 ≤ index ∧ index < (st.slides.length : Int)) then .ok (false, st)
  else
    match ensureTables st index with
    | .error e => .error e
    | .ok (none, st1) => .ok (false, st1)
    | .ok (some _, st1) =>
      match dlookup st1.summary_tables index with
      | none => .error "KeyError"
      | some slide_tables =>
        if slide_tables = [] then .ok (false, st1)
        else
          let table_data := slide_tables.headD []
          if row < 0 ∨ (table_data.length : Int) ≤ row then .ok (false, st1)
          else if col < 0 ∨ ((table_data.headD []).length : Int) ≤ col then .ok (false, st1)
          else if ¬ (col.toNat < (table_data.getD row.toNat []).length) then
            -- ppt.py line 461 `table_data[row][col] = new_text` sits outside any
            -- try block: when the addressed row of a ragged cached grid is
            -- shorter than `col`, Python raises an uncaught IndexError
            .error "IndexError"
          else
            let table_data1 :=
              table_data.set row.toNat ((table_data.getD row.toNat []).set col.toNat new_text)
            let new_tables := dinsert st1.summary_tables index (slide_tables.set 0 table_data1)
            let slide := st1.slides.getD index.toNat default
            match slide.shapes.find? (fun sh => sh.shapeType == msoTable) with
            | none => .ok (true, { st1 with summary_tables := new_tables })
            | some sh =>
              if row.toNat < tblRows sh.table ∧ col.toNat < tblCols sh.table then
                .ok (true, { st1 with
                  summary_tables := new_tables
                  slides := setNativeCell st1.slides index.toNat row.toNat col.toNat new_text })
              else .ok (false, { st1 with summary_tables := new_tables })

/-- State effect of `show_slide_metadata`, ppt.py lines 518-560: the method
only prints, except that for a summary slide with a completely empty table
cache it runs `extract_table_from_slide` (line 557).  The follow-up call
`show_summary_tables(slide_title)` looks a string key up in the int-keyed
dictionary, always misses, and never mutates.  A nonnegative index never
raises, so the error branch of the extraction is unreachable here. -/
def show_slide_metadata_state (st : PState) (index : Nat) : PState :=
  if index ∈ st.summary_slides ∧ st.summary_tables = [] then
    match extract_table_from_slide st (index : Int) with
    | .ok p => p.2
    | .error _ => st
  else st

/-- The in-memory grid update performed by a successful `set_summary_table`:
the first cached grid gets `x` written at row `r`, column `c` (ppt.py lines
452 and 461, as one functional update). -/
def gridWrite (tabs : List (List (List String))) (r c : Nat) (x : String) :
    List (List (List String)) :=
  tabs.set 0 ((tabs.headD []).set r (((tabs.headD []).getD r []).set c x))

instance {ε α : Type} [DecidableEq ε] [DecidableEq α] : DecidableEq (Except ε α) := fun a b => by
  cases a <;> cases b
  case error.error e f =>
    exact if h : e = f then .isTrue (by rw [h]) else .isFalse (by simp [h])
  case error.ok => exact .isFalse (by simp)
  case ok.error => exact .isFalse (by simp)
  case ok.ok x y =>
    exact if h : x = y then .isTrue (by rw [h]) else .isFalse (by simp [h])

/-! Title-resolution analysis. -/

/-- A shape that stops the title scan: nonempty text and the is-title probe
succeeds (ppt.py lines 265-268). -/
def titledWithText (sh : Shape) : Bool :=
  sh.hasText && (sh.text != "") && sh.hasIsTitle && sh.is_title

/-- A shape the fallback branch of the title scan can commit to for good:
nonempty text that differs from the literal default string. -/
def fallbackCandidate (sh : Shape) : Bool :=
  sh.hasText && (sh.text != "") && (sh.text != "Untitled")

/-- Title precedence as the specification words it: the first title-flagged
shape with nonempty text, otherwise the first shape with nonempty text,
otherwise "Untitled".  Stated from the spec for comparison with
`resolveTitle`, which is translated from the code. -/
def claimTitle (shapes : List Shape) : String :=
  match shapes.find? titledWithText with
  | some sh => sh.text
  | none =>
    match shapes.find? (fun sh => sh.hasText && (sh.text != "")) with
    | some sh => sh.text
    | none => "Untitled"

/-- Title precedence as the code actually behaves: the first title-flagged
shape with nonempty text, otherwise the first shape whose nonempty text
differs from "Untitled", otherwise "Untitled". -/
def amendedTitle (shapes : List Shape) : String :=
  match shapes.find? titledWithText with
  | some sh => sh.text
  | none =>
    match shapes.find? fallbackCandidate with
    | some sh => sh.text
    | none => "Untitled"

/-! Concrete shapes, slides and states used as test inputs. -/

/-- A plain text box: the text attributes respond, the is-title probe
responds but is false. -/
def textShape (t : String) : Shape :=
  { hasText := true, text := t, hasIsTitle := true, is_title := false,
    hasTextFrame := true, tfHasText := true, tfText := t,
    shapeType := "TEXT_BOX (17)", table := [] }

/-- A title placeholder with text `t`. -/
def titleShape (t : String) : Shape := { textShape t with is_title := true }

/-- A table shape with native grid `g` and no text attributes. -/
def tableShape (g : List (List String)) : Shape :=
  { hasText := false, text := "", hasIsTitle := false, is_title := false,
    hasTextFrame := false, tfHasText := false, tfText := "",
    shapeType := msoTable, table := g }

/-- A slide with a named layout. -/
def mkSlide (layout : String) (shs : List Shape) : Slide :=
  { shapes := shs, hasLayout := true, layoutName := layout }

/-- A session state over the given slides with the given table cache and
otherwise empty classification results. -/
def mkState (slides : List Slide) (cache : List (Int × List (List (List String)))) : PState :=
  { slides := slides, title_slides := [0], summary_slides := [],
    section_header := [], section_summaries := [], summary_tables := cache }

/-- A slide whose layout is not the title-only layout but that the code
classifies as a summary slide. -/
def c1SlideA : Slide :=
  mkSlide "Blank" [textShape "Summary results", tableShape [["a"]]]

/-- A slide with the title-only layout and a resolved title that starts with
"summary:" case-insensitively, but with no table, which the code leaves
unclassified. -/
def c1SlideB : Slide := mkSlide "Title Only" [titleShape "Summary: Q1 Results"]

/-- A slide whose layout is neither a title nor a section-header layout. -/
def c2Slide : Slide := mkSlide "Blank Layout" [textShape "hello"]

/-- The section-header slide of the specification example. -/
def c7Slide : Slide :=
  mkSlide "Section Header" [textShape "Intro", textShape "This section covers X"]

/-- A slide whose first nonempty shape text is the literal string "Untitled". -/
def c9Slide : Slide := mkSlide "Blank" [textShape "Untitled", textShape "Hello"]

/-- Concrete state for C3: one slide carrying one table. -/
def c3St : PState := mkState [mkSlide "Blank" [tableShape [["a", "b"]]]] []

/-- Concrete state for C8 with no table on the slide. -/
def c8StA : PState := mkState [mkSlide "L" [textShape "x"]] []

/-- Concrete state for C8 with a table on the slide and a stale prior cache
entry, exercising the overwrite. -/
def c8StB : PState := mkState [mkSlide "L" [tableShape [["z"]]]] [(0, [[["old"]]])]

/-- Concrete state for C5: one slide with one 2-by-2 table, cache populated. -/
def c5St : PState :=
  mkState [mkSlide "Layout" [tableShape [["a", "b"], ["c", "d"]]]]
    [(0, [[["a", "b"], ["c", "d"]]])]

/-- Concrete state for C4: cached 2-by-2 grid but a 1-by-1 native table. -/
def c4St : PState :=
  mkState [mkSlide "Layout" [tableShape [["n"]]]] [(0, [[["a", "b"], ["c", "d"]]])]

/-- Concrete state for C10: cached grid but no table shape on the slide. -/
def c10St : PState :=
  mkState [mkSlide "Layout" [textShape "hello"]] [(0, [[["a", "b"]]])]

/-- Concrete state for C6: one slide with a 2-by-2 table, empty cache, the
slide registered as a summary slide. -/
def c6St : PState :=
  { slides := [mkSlide "Layout" [tableShape [["a", "b"], ["c", "d"]]]],
    title_slides := [0], summary_slides := [0], section_header := [],
    section_summaries := [], summary_tables := [] }

/-- The state after a successful `set_summary_table c6St 0 1 0 "X"`: the
cache was filled by extraction, cell (1, 0) was rewritten in memory, and the
native write succeeded as well. -/
def c6St1 : PState :=
  { slides := [mkSlide "Layout" [tableShape [["a", "b"], ["X", "d"]]]],
    title_slides := [0], summary_slides := [0], section_header := [],
    section_summaries := [], summary_tables := [(0, [[["a", "b"], ["X", "d"]]])] }

/-! Helper lemmas about the dictionary and list primitives. -/

theorem dlookup_dinsert_self {κ α : Type} [DecidableEq κ] (d : List (κ × α)) (k : κ) (v : α) :
    dlookup (dinsert d k v) k = some v := by
  induction d with
  | nil => simp [dinsert, dlookup]
  | cons p rest ih =>
    by_cases h : p.1 = k
    · simp [dinsert, h, dlookup]
    · simp [dinsert, h, dlookup, ih]

theorem dlookup_dinsert_ne {κ α : Type} [DecidableEq κ] (d : List (κ × α)) (k k' : κ) (v : α)
    (h : k' ≠ k) : dlookup (dinsert d k v) k' = dlookup d k' := by
  induction d with
  | nil => simp [dinsert, dlookup, Ne.symm h]
  | cons p rest ih =>
    by_cases hp : p.1 = k
    · simp [dinsert, hp, dlookup, Ne.symm h]
    · simp [dinsert, hp, dlookup, ih]

theorem dlookup_ne_nil {κ α : Type} [DecidableEq κ] {d : List (κ × α)} {k : κ} {v : α}
    (h : dlookup d k = some v) : d ≠ [] := by
  intro hd
  subst hd
  simp [dlookup] at h

theorem getD_set_self {α : Type} : ∀ (l : List α) (i : Nat) (v d : α),
    i < l.length → (l.set i v).getD i d = v
  | [], i, v, d, h => absurd h (by simp)
  | a :: l, 0, v, d, _ => rfl
  | a :: l, i + 1, v, d, h => by
    have ih := getD_set_self l i v d (Nat.lt_of_succ_lt_succ h)
    simpa [List.set] using ih

theorem headD_set_zero {α : Type} (l : List α) (v d : α) (h : l ≠ []) :
    (l.set 0 v).headD d = v := by
  cases l with
  | nil => exact absurd rfl h
  | cons a l => rfl

/-! Characterizations of the classification loops. -/

theorem mem_ssGo (slides : List Slide) : ∀ (n i : Nat),
    i ∈ ssGo slides n ↔
      ∃ j s, slides.get? j = some s ∧ i = n + j ∧ slideIsSummary s = true := by
  induction slides with
  | nil => intro n i; simp [ssGo]
  | cons s rest ih =>
    intro n i
    by_cases hs : slideIsSummary s = true
    · constructor
      · intro hmem
        rw [ssGo, if_pos hs] at hmem
        rcases List.mem_cons.mp hmem with rfl | hmem
        · exact ⟨0, s, rfl, by omega, hs⟩
        · obtain ⟨j, t, hjt, hi, ht⟩ := (ih (n + 1) i).mp hmem
          exact ⟨j + 1, t, hjt, by omega, ht⟩
      · rintro ⟨j, t, hjt, hi, ht⟩
        rw [ssGo, if_pos hs]
        cases j with
        | zero =>
          have : i = n := by omega
          subst this
          exact List.mem_cons_self _ _
        | succ j =>
          exact List.mem_cons.mpr (Or.inr ((ih (n + 1) i).mpr ⟨j, t, hjt, by omega, ht⟩))
    · rw [ssGo, if_neg hs, ih (n + 1) i]
      constructor
      · rintro ⟨j, t, hjt, hi, ht⟩
        exact ⟨j + 1, t, hjt, by omega, ht⟩
      · rintro ⟨j, t, hjt, hi, ht⟩
        cases j with
        | zero =>
          injection hjt with h1
          exact absurd (h1 ▸ ht) hs
        | succ j => exact ⟨j, t, hjt, by omega, ht⟩

theorem mem_shGo_fst (slides : List Slide) : ∀ (n : Nat) (d : List (Int × String × String))
    (i : Nat), i ∈ (shGo slides n d).1 ↔
      ∃ j s, slides.get? j = some s ∧ i = n + j ∧ isSectionHeader s = true := by
  induction slides with
  | nil => intro n d i; simp [shGo]
  | cons s rest ih =>
    intro n d i
    by_cases hs : isSectionHeader s = true
    · constructor
      · intro hmem
        rw [shGo, if_pos hs] at hmem
        rcases List.mem_cons.mp hmem with rfl | hmem
        · exact ⟨0, s, rfl, by omega, hs⟩
        · obtain ⟨j, t, hjt, hi, ht⟩ := (ih (n + 1) _ i).mp hmem
          exact ⟨j + 1, t, hjt, by omega, ht⟩
      · rintro ⟨j, t, hjt, hi, ht⟩
        rw [shGo, if_pos hs]
        cases j with
        | zero =>
          have : i = n := by omega
          subst this
          exact List.mem_cons_self _ _
        | succ j =>
          exact List.mem_cons.mpr (Or.inr ((ih (n + 1) _ i).mpr ⟨j, t, hjt, by omega, ht⟩))
    · rw [shGo, if_neg hs, ih (n + 1) d i]
      constructor
      · rintro ⟨j, t, hjt, hi, ht⟩
        exact ⟨j + 1, t, hjt, by omega, ht⟩
      · rintro ⟨j, t, hjt, hi, ht⟩
        cases j with
        | zero =>
          injection hjt with h1
          exact absurd (h1 ▸ ht) hs
        | succ j => exact ⟨j, t, hjt, by omega, ht⟩

theorem shGo_lookup_lt (slides : List Slide) : ∀ (n : Nat) (d : List (Int × String × String))
    (k : Int), k < (n : Int) → dlookup (shGo slides n d).2 k = dlookup d k := by
  induction slides with
  | nil => intro n d k hk; rfl
  | cons s rest ih =>
    intro n d k hk
    by_cases hs : isSectionHeader s = true
    · rw [shGo, if_pos hs]
      rw [ih (n + 1) _ k (by push_cast; omega)]
      exact dlookup_dinsert_ne _ _ _ _ (by omega)
    · rw [shGo, if_neg hs]
      exact ih (n + 1) d k (by push_cast; omega)

theorem shGo_lookup_at (slides : List Slide) : ∀ (n : Nat) (d : List (Int × String × String))
    (j : Nat) (s : Slide), slides.get? j = some s → isSectionHeader s = true →
    dlookup (shGo slides n d).2 ((n + j : Nat) : Int) =
      some (sectionTitleOf s.shapes, sectionSummaryOf s.shapes) := by
  induction slides with
  | nil => intro n d j s hj _; simp at hj
  | cons s0 rest ih =>
    intro n d j s hj hs
    cases j with
    | zero =>
      injection hj with h1
      subst h1
      rw [shGo, if_pos hs]
      rw [shGo_lookup_lt rest (n + 1) _ _ (by push_cast; omega)]
      simpa using dlookup_dinsert_self d (n : Int) _
    | succ j =>
      have hj1 : rest.get? j = some s := hj
      have hkey : ((n + (j + 1) : Nat) : Int) = (((n + 1) + j : Nat) : Int) := by
        push_cast; omega
      by_cases hs0 : isSectionHeader s0 = true
      · rw [shGo, if_pos hs0, hkey]
        exact ih (n + 1) _ j s hj1 hs
      · rw [shGo, if_neg hs0, hkey]
        exact ih (n + 1) d j s hj1 hs

theorem titledWithText_eq_true (sh : Shape)
    (h1 : sh.hasText ∧ sh.text ≠ "") (h2 : sh.hasIsTitle ∧ sh.is_title) :
    titledWithText sh = true := by
  simp only [titledWithText, Bool.and_eq_true, bne_iff_ne, ne_eq]
  exact ⟨⟨⟨h1.1, h1.2⟩, h2.1⟩, h2.2⟩

theorem titledWithText_eq_false_of_not_titled (sh : Shape)
    (h2 : ¬ (sh.hasIsTitle ∧ sh.is_title)) : titledWithText sh = false := by
  rw [Bool.eq_false_iff]
  simp only [ne_eq, titledWithText, Bool.and_eq_true, bne_iff_ne]
  rintro ⟨⟨⟨-, -⟩, hc⟩, hd⟩
  exact h2 ⟨hc, hd⟩

theorem titledWithText_eq_false_of_no_text (sh : Shape)
    (h1 : ¬ (sh.hasText ∧ sh.text ≠ "")) : titledWithText sh = false := by
  rw [Bool.eq_false_iff]
  simp only [ne_eq, titledWithText, Bool.and_eq_true, bne_iff_ne]
  rintro ⟨⟨⟨ha, hb⟩, -⟩, -⟩
  exact h1 ⟨ha, hb⟩

theorem fallbackCandidate_eq_false_of_no_text (sh : Shape)
    (h1 : ¬ (sh.hasText ∧ sh.text ≠ "")) : fallbackCandidate sh = false := by
  rw [Bool.eq_false_iff]
  simp only [ne_eq, fallbackCandidate, Bool.and_eq_true, bne_iff_ne]
  rintro ⟨⟨ha, hb⟩, -⟩
  exact h1 ⟨ha, hb⟩

theorem titleGo_ne_untitled (shapes : List Shape) : ∀ (t : String), t ≠ "Untitled" →
    titleGo shapes t =
      (match shapes.find? titledWithText with
       | some sh => sh.text
       | none => t) := by
  induction shapes with
  | nil => intro t ht; rfl
  | cons sh rest ih =>
    intro t ht
    by_cases h1 : sh.hasText ∧ sh.text ≠ ""
    · by_cases h2 : sh.hasIsTitle ∧ sh.is_title
      · rw [titleGo, if_pos h1, if_pos h2,
          List.find?_cons_of_pos _ (titledWithText_eq_true sh h1 h2)]
      · rw [titleGo, if_pos h1, if_neg h2, if_neg ht,
          List.find?_cons_of_neg _ (by simp [titledWithText_eq_false_of_not_titled sh h2])]
        exact ih t ht
    · rw [titleGo, if_neg h1,
        List.find?_cons_of_neg _ (by simp [titledWithText_eq_false_of_no_text sh h1])]
      exact ih t ht

theorem titleGo_untitled (shapes : List Shape) :
    titleGo shapes "Untitled" = amendedTitle shapes := by
  induction shapes with
  | nil => rfl
  | cons sh rest ih =>
    by_cases h1 : sh.hasText ∧ sh.text ≠ ""
    · by_cases h2 : sh.hasIsTitle ∧ sh.is_title
      · rw [titleGo, if_pos h1, if_pos h2, amendedTitle,
          List.find?_cons_of_pos _ (titledWithText_eq_true sh h1 h2)]
      · by_cases h3 : sh.text = "Untitled"
        · rw [titleGo, if_pos h1, if_neg h2, if_pos rfl, h3, ih, amendedTitle, amendedTitle,
            List.find?_cons_of_neg _ (by simp [titledWithText_eq_false_of_not_titled sh h2]),
            List.find?_cons_of_neg _ (by
              simp only [fallbackCandidate, Bool.and_eq_true, bne_iff_ne, ne_eq]
              rintro ⟨-, hu⟩
              exact hu h3)]
        · rw [titleGo, if_pos h1, if_neg h2, if_pos rfl,
            titleGo_ne_untitled rest sh.text h3, amendedTitle,
            List.find?_cons_of_neg _ (by simp [titledWithText_eq_false_of_not_titled sh h2])]
          cases hfind : rest.find? titledWithText with
          | some t => rfl
          | none =>
            have hfb : fallbackCandidate sh = true := by
              simp only [fallbackCandidate, Bool.and_eq_true, bne_iff_ne, ne_eq]
              exact ⟨⟨h1.1, h1.2⟩, h3⟩
            rw [List.find?_cons_of_pos _ hfb]
    · rw [titleGo, if_neg h1, ih, amendedTitle, amendedTitle,
        List.find?_cons_of_neg _ (by simp [titledWithText_eq_false_of_no_text sh h1]),
        List.find?_cons_of_neg _ (by simp [fallbackCandidate_eq_false_of_no_text sh h1])]

/-! State-preservation lemmas for the table engine. -/

theorem extract_fields (st : PState) (index : Int) (g : List (List (List String)))
    (stE : PState) (h : extract_table_from_slide st index = .ok (g, stE)) :
    stE.slides = st.slides ∧ stE.summary_slides = st.summary_slides := by
  unfold extract_table_from_slide at h
  split at h
  · simp only [Except.ok.injEq, Prod.mk.injEq] at h
    obtain ⟨-, rfl⟩ := h
    exact ⟨rfl, rfl⟩
  · split at h
    · simp at h
    · split at h
      · simp only [Except.ok.injEq, Prod.mk.injEq] at h
        obtain ⟨-, rfl⟩ := h
        exact ⟨rfl, rfl⟩
      · simp only [Except.ok.injEq, Prod.mk.injEq] at h
        obtain ⟨-, rfl⟩ := h
        exact ⟨rfl, rfl⟩

theorem ensure_fields (st : PState) (index : Int) (o : Option Unit) (stA : PState)
    (h : ensureTables st index = .ok (o, stA)) :
    stA.slides = st.slides ∧ stA.summary_slides = st.summary_slides := by
  unfold ensureTables at h
  split at h
  · simp only [Except.ok.injEq, Prod.mk.injEq] at h
    obtain ⟨-, rfl⟩ := h
    exact ⟨rfl, rfl⟩
  · split at h
    · simp at h
    · rename_i tables stE heq
      split at h
      · simp only [Except.ok.injEq, Prod.mk.injEq] at h
        obtain ⟨-, rfl⟩ := h
        exact extract_fields st index tables _ heq
      · simp only [Except.ok.injEq, Prod.mk.injEq] at h
        obtain ⟨-, rfl⟩ := h
        exact extract_fields st index tables _ heq

theorem get_cached (st : PState) (index : Int) (tabs : List (List (List String)))
    (hv : 0 ≤ index ∧ index < (st.slides.length : Int))
    (hl : dlookup st.summary_tables index = some tabs) :
    get_summary_table st index = .ok (some tabs, st) := by
  unfold get_summary_table
  rw [if_neg (not_not_intro hv)]
  simp [hl]

theorem show_state_of_cached (st : PState) (k : Nat) (hne : st.summary_tables ≠ []) :
    show_slide_metadata_state st k = st := by
  unfold show_slide_metadata_state
  rw [if_neg (fun hc => hne hc.2)]

theorem cell_after_set (tabs : List (List (List String))) (r c : Nat) (x : String)
    (hne : tabs ≠ []) (hr : r < (tabs.headD []).length)
    (hc : c < ((tabs.headD []).getD r []).length) :
    (((gridWrite tabs r c x).headD []).getD r []).getD c "" = x := by
  rw [gridWrite, headD_set_zero _ _ _ hne, getD_set_self _ _ _ _ hr]
  exact getD_set_self _ _ _ _ hc

theorem setNativeCell_length (slides : List Slide) (i r c : Nat) (t : String) :
    (setNativeCell slides i r c t).length = slides.length := by
  unfold setNativeCell
  exact List.length_set _ _ _

/-! Claim theorems. -/

/-! Claim C1: summary-slide classification. -/

/-- C1 (counterexample): the claim says a slide is a summary slide iff its
layout name equals the reserved title-only name and its resolved title starts
with "summary:" case-insensitively.  Slide `c1SlideA` has layout "Blank",
matching neither reserved layout name, yet is classified; slide `c1SlideB`
has the title-only layout and the required title prefix, yet is not
classified (it has no table).  Both directions of the claimed iff fail. -/
theorem C1_counterexample :
    identify_summary_slides [c1SlideA] = [0] ∧
    c1SlideA.layoutName = "Blank" ∧
    identify_summary_slides [c1SlideB] = [] ∧
    c1SlideB.layoutName = "Title Only" ∧
    pyStartsWith (pyToLower (resolveTitle c1SlideB.shapes)) "summary:" = true := by
  decide

/-- C1 (amended): a slide is classified as a summary slide iff some shape has
nonempty text that case-insensitively starts with "summary" (no colon
required, the layout name is never consulted, and the shape need not be the
title) and the slide contains at least one table shape. -/
theorem C1_summary_classification (slides : List Slide) (i : Nat) :
    i ∈ identify_summary_slides slides ↔
      ∃ s, slides.get? i = some s ∧
        s.shapes.any shapeTextStartsSummary = true ∧ slideHasTable s = true := by
  rw [identify_summary_slides, mem_ssGo slides 0 i]
  constructor
  · rintro ⟨j, s, hj, hi, hs⟩
    have hji : j = i := by omega
    subst hji
    rw [slideIsSummary, Bool.and_eq_true] at hs
    exact ⟨s, hj, hs.1, hs.2⟩
  · rintro ⟨s, hj, hA, hB⟩
    exact ⟨i, s, hj, by omega, by rw [slideIsSummary, Bool.and_eq_true]; exact ⟨hA, hB⟩⟩

/-- C1 witness: the amended characterization applied to the concrete slide. -/
theorem C1_summary_classification_witness :
    0 ∈ identify_summary_slides [c1SlideA] :=
  (C1_summary_classification [c1SlideA] 0).mpr ⟨c1SlideA, rfl, by decide, by decide⟩

/-! Claim C2: eager metadata extraction at load time. -/

/-- C2 (counterexample): the claim says load runs per-slide metadata
extraction for every slide.  On a one-slide deck whose slide is not a
section header, load performs no metadata-extraction call at all, so the
call list is not the full index range of the deck. -/
theorem C2_counterexample :
    loadMetadataCalls [c2Slide] = [] ∧
    ([c2Slide] : List Slide).length = 1 ∧
    loadMetadataCalls [c2Slide] ≠ List.range ([c2Slide] : List Slide).length := by
  decide

/-- C2 (amended): during load, per-slide metadata extraction is invoked
exactly for the slides whose layout name equals "Section Header" (once each,
to print their titles), and the loaded state stores the section-header index
list rather than any per-slide metadata collection. -/
theorem C2_load_metadata_calls (slides : List Slide) (i : Nat) :
    (load_presentation slides).section_header = loadMetadataCalls slides ∧
    (i ∈ loadMetadataCalls slides ↔
      ∃ s, slides.get? i = some s ∧ isSectionHeader s = true) := by
  refine ⟨rfl, ?_⟩
  rw [loadMetadataCalls, identify_section_header_slides, mem_shGo_fst slides 0 [] i]
  constructor
  · rintro ⟨j, s, hj, hi, hs⟩
    have hji : j = i := by omega
    subst hji
    exact ⟨s, hj, hs⟩
  · rintro ⟨s, hj, hs⟩
    exact ⟨i, s, hj, by omega, hs⟩

/-- C2 witness: the amended statement applied to the concrete one-slide deck. -/
theorem C2_load_metadata_calls_witness :
    (load_presentation [c2Slide]).section_header = loadMetadataCalls [c2Slide] :=
  (C2_load_metadata_calls [c2Slide] 0).1

/-! Claim C7: section-header classification. -/

/-- C7: every slide whose layout name is "Section Header" has its index
recorded and its section entry built from the text-frame text of the shape at
position 0 (title) and position 1 (summary), each only when that shape has
the text-frame capabilities; shapes at positions 2 and beyond are ignored
(the entry depends only on the first two shapes), and a missing first or
second shape yields the empty string by definition of `sectionTitleOf` and
`sectionSummaryOf`. -/
theorem C7_section_header_classification (slides : List Slide)
    (init : List (Int × String × String)) (i : Nat) (s : Slide)
    (hs : slides.get? i = some s) (hsh : isSectionHeader s = true) :
    i ∈ (identify_section_header_slides slides init).1 ∧
    dlookup (identify_section_header_slides slides init).2 (i : Int) =
      some (sectionTitleOf s.shapes, sectionSummaryOf s.shapes) ∧
    sectionTitleOf s.shapes = sectionTitleOf (s.shapes.take 2) ∧
    sectionSummaryOf s.shapes = sectionSummaryOf (s.shapes.take 2) := by
  have h0 : (s.shapes.take 2).get? 0 = s.shapes.get? 0 := by
    cases s.shapes with
    | nil => rfl
    | cons a t => rfl
  have h1 : (s.shapes.take 2).get? 1 = s.shapes.get? 1 := by
    cases s.shapes with
    | nil => rfl
    | cons a t =>
      cases t with
      | nil => rfl
      | cons b u => rfl
  refine ⟨?_, ?_, ?_, ?_⟩
  · exact (mem_shGo_fst slides 0 init i).mpr ⟨i, s, hs, by omega, hsh⟩
  · have hat := shGo_lookup_at slides 0 init i s hs hsh
    simpa using hat
  · simp only [sectionTitleOf, h0]
  · simp only [sectionSummaryOf, h1]

/-- C7 witness: the specification example deck (slide 1 is the section
header) yields entry ("Intro", "This section covers X") at index 1. -/
theorem C7_section_header_classification_witness :
    1 ∈ (identify_section_header_slides [mkSlide "Title Slide" [], c7Slide] []).1 ∧
    dlookup (identify_section_header_slides [mkSlide "Title Slide" [], c7Slide] []).2 (1 : Int) =
      some (sectionTitleOf c7Slide.shapes, sectionSummaryOf c7Slide.shapes) ∧
    sectionTitleOf c7Slide.shapes = "Intro" ∧
    sectionSummaryOf c7Slide.shapes = "This section covers X" := by
  have h := C7_section_header_classification [mkSlide "Title Slide" [], c7Slide] [] 1 c7Slide
    rfl (by decide)
  exact ⟨h.1, h.2.1, by decide, by decide⟩

/-! Claim C9: title resolution precedence. -/

/-- C9 (counterexample): the claim says that with no title-placeholder shape
the title is the text of the first shape with nonempty text.  On a slide
whose first shape text is the literal "Untitled", the code instead keeps
scanning and returns the later shape text "Hello", because the fallback
branch only fires while the title still equals "Untitled". -/
theorem C9_counterexample :
    resolveTitle c9Slide.shapes = "Hello" ∧
    claimTitle c9Slide.shapes = "Untitled" ∧
    (extract_metadata_from_slide c9Slide 0).title ≠ claimTitle c9Slide.shapes := by
  decide

/-- C9 (amended): the resolved title is the text of the first shape that is a
title placeholder with nonempty text (scan stops there); otherwise the text
of the first shape whose nonempty text differs from the literal string
"Untitled" (a shape whose text is exactly "Untitled" can be superseded by a
later shape); otherwise "Untitled". -/
theorem C9_title_resolution (slide : Slide) (index : Int) :
    (extract_metadata_from_slide slide index).title = amendedTitle slide.shapes :=
  titleGo_untitled slide.shapes

/-- C9 witness: the amended rule applied to the concrete slide. -/
theorem C9_title_resolution_witness :
    (extract_metadata_from_slide c9Slide 0).title = amendedTitle c9Slide.shapes :=
  C9_title_resolution c9Slide 0

/-! Claim C3: index validation in extract_tables. -/

/-- C3 (counterexample): the claim says every slide index outside
`[0, slide_count)` fails and leaves the state unchanged.  At index `-1` on a
one-slide deck, extraction instead wraps around Python-style, returns the
grids of slide 0, and writes a cache entry under the key `-1`, changing the
session state. -/
theorem C3_counterexample :
    extract_table_from_slide c3St (-1) =
      .ok ([[["a", "b"]]], { c3St with summary_tables := [(-1, [[["a", "b"]]])] }) ∧
    ({ c3St with summary_tables := [(-1, [[["a", "b"]]])] }) ≠ c3St :=
  ⟨rfl, by decide⟩

/-- C3 (amended): only indices at or above the slide count are rejected (the
call returns an empty list with the state unchanged); an index below
`-slide_count` raises an uncaught IndexError; and any other index, negative
ones included, resolves Python-style to an existing slide and extracts from
it, writing the cache under the given (possibly negative) key when grids are
found. -/
theorem C3_index_regimes (st : PState) (index : Int) :
    ((st.slides.length : Int) ≤ index → extract_table_from_slide st index = .ok ([], st)) ∧
    (index < -(st.slides.length : Int) →
      extract_table_from_slide st index = .error "IndexError") ∧
    (-(st.slides.length : Int) ≤ index → index < (st.slides.length : Int) →
      ∃ s, pyGet st.slides index = some s ∧
        (extractTables s = [] → extract_table_from_slide st index = .ok ([], st)) ∧
        (extractTables s ≠ [] → extract_table_from_slide st index =
          .ok (extractTables s,
            { st with summary_tables := dinsert st.summary_tables index (extractTables s) }))) := by
  refine ⟨?_, ?_, ?_⟩
  · intro hge
    unfold extract_table_from_slide
    rw [if_pos hge]
  · intro hlt
    unfold extract_table_from_slide
    rw [if_neg (by omega)]
    have hnone : pyGet st.slides index = none := by
      unfold pyGet
      rw [if_neg (by omega), if_neg (by omega)]
    rw [hnone]
  · intro hged hlt
    have hsome : ∃ s, pyGet st.slides index = some s := by
      unfold pyGet
      by_cases h0 : 0 ≤ index
      · rw [if_pos h0]
        cases hx : st.slides.get? index.toNat with
        | none =>
          rw [List.get?_eq_none] at hx
          omega
        | some s => exact ⟨s, rfl⟩
      · rw [if_neg h0, if_pos (by omega)]
        cases hx : st.slides.get? ((st.slides.length : Int) + index).toNat with
        | none =>
          rw [List.get?_eq_none] at hx
          omega
        | some s => exact ⟨s, rfl⟩
    obtain ⟨s, hs⟩ := hsome
    refine ⟨s, hs, ?_, ?_⟩
    · intro hempty
      unfold extract_table_from_slide
      rw [if_neg (by omega), hs]
      simp [hempty]
    · intro hne
      unfold extract_table_from_slide
      rw [if_neg (by omega), hs]
      simp [hne]

/-- C3 witness: the amended regimes applied at concrete indices of the
one-slide deck. -/
theorem C3_index_regimes_witness :
    extract_table_from_slide c3St 5 = .ok ([], c3St) ∧
    extract_table_from_slide c3St (-2) = .error "IndexError" :=
  ⟨(C3_index_regimes c3St 5).1 (by decide), (C3_index_regimes c3St (-2)).2.1 (by decide)⟩

/-! Claim C8: cache-write discipline of extract_tables. -/

/-- C8: on a valid slide index, extraction that finds no table returns an
empty list and leaves the whole state (the cache included) unchanged;
extraction that finds grids stores exactly the full grid list under the
index, overwriting any prior entry there and leaving every other key
untouched. -/
theorem C8_cache_write (st : PState) (index : Int) (s : Slide)
    (hidx : 0 ≤ index ∧ index < (st.slides.length : Int))
    (hs : pyGet st.slides index = some s) :
    (extractTables s = [] → extract_table_from_slide st index = .ok ([], st)) ∧
    (extractTables s ≠ [] →
      extract_table_from_slide st index =
        .ok (extractTables s,
          { st with summary_tables := dinsert st.summary_tables index (extractTables s) }) ∧
      dlookup (dinsert st.summary_tables index (extractTables s)) index =
        some (extractTables s) ∧
      ∀ k, k ≠ index →
        dlookup (dinsert st.summary_tables index (extractTables s)) k =
          dlookup st.summary_tables k) := by
  constructor
  · intro hempty
    unfold extract_table_from_slide
    rw [if_neg (by omega), hs]
    simp [hempty]
  · intro hne
    refine ⟨?_, dlookup_dinsert_self _ _ _, fun k hk => dlookup_dinsert_ne _ _ _ _ hk⟩
    unfold extract_table_from_slide
    rw [if_neg (by omega), hs]
    simp [hne]

/-- C8 witness: a tableless slide leaves the state unchanged; a slide with a
table overwrites the prior entry for its index. -/
theorem C8_cache_write_witness :
    extract_table_from_slide c8StA 0 = .ok ([], c8StA) ∧
    extract_table_from_slide c8StB 0 =
      .ok ([[["z"]]], { c8StB with summary_tables := [(0, [[["z"]]])] }) :=
  ⟨(C8_cache_write c8StA 0 (mkSlide "L" [textShape "x"]) (by decide) rfl).1 (by decide),
   ((C8_cache_write c8StB 0 (mkSlide "L" [tableShape [["z"]]]) (by decide) rfl).2
      (by decide)).1⟩

/-! Claim C5: out-of-bounds cell writes are rejected without mutation. -/

/-- C5: with a populated cache for a valid slide index, a row or column
outside the bounds of the first cached grid makes `set_summary_table` return
`false` with the state (cached grids and native slides both) completely
unchanged; the bounds are taken from the first cached grid only, so only the
first table on a slide is addressable. -/
theorem C5_oob_write_rejected (st : PState) (index row col : Int) (x : String)
    (tabs : List (List (List String)))
    (hidx : 0 ≤ index ∧ index < (st.slides.length : Int))
    (hcache : dlookup st.summary_tables index = some tabs)
    (htabs : tabs ≠ [])
    (hoob : row < 0 ∨ ((tabs.headD []).length : Int) ≤ row ∨
            col < 0 ∨ (((tabs.headD []).headD []).length : Int) ≤ col) :
    set_summary_table st index row col x = .ok (false, st) := by
  have hens : ensureTables st index = .ok (some (), st) := by
    unfold ensureTables
    rw [if_pos (by rw [hcache]; rfl)]
  unfold set_summary_table
  rw [if_neg (not_not_intro hidx), hens]
  simp only [hcache]
  rw [if_neg htabs]
  by_cases hrow : row < 0 ∨ ((tabs.headD []).length : Int) ≤ row
  · rw [if_pos hrow]
  · rw [if_neg hrow]
    have hcol : col < 0 ∨ (((tabs.headD []).headD []).length : Int) ≤ col := by
      rcases hoob with h | h | h | h
      · exact absurd (Or.inl h) hrow
      · exact absurd (Or.inr h) hrow
      · exact Or.inl h
      · exact Or.inr h
    rw [if_pos hcol]

/-- C5 witness: an out-of-range row and a negative column are both rejected
with the state unchanged. -/
theorem C5_oob_write_rejected_witness :
    set_summary_table c5St 0 5 0 "X" = .ok (false, c5St) ∧
    set_summary_table c5St 0 0 (-1) "X" = .ok (false, c5St) :=
  ⟨C5_oob_write_rejected c5St 0 5 0 "X" [[["a", "b"], ["c", "d"]]] (by decide) rfl
      (by decide) (Or.inr (Or.inl (by decide))),
   C5_oob_write_rejected c5St 0 0 (-1) "X" [[["a", "b"], ["c", "d"]]] (by decide) rfl
      (by decide) (Or.inr (Or.inr (Or.inl (by decide))))⟩

/-! Claim C4: partial-write inconsistency on a native index fault. -/

/-- C4: when the slide index is valid, the first cached grid admits the
requested row and column, but the first native table shape is too small for
them, `set_summary_table` returns `false` while the cache now holds the
mutated grid with the new text at the requested cell (the in-memory mutation
is not rolled back), and the native slides are untouched. -/
theorem C4_partial_write (st : PState) (index row col : Int) (x : String)
    (tabs : List (List (List String))) (sh : Shape)
    (hidx : 0 ≤ index ∧ index < (st.slides.length : Int))
    (hcache : dlookup st.summary_tables index = some tabs)
    (htabs : tabs ≠ [])
    (hrow : 0 ≤ row ∧ row < ((tabs.headD []).length : Int))
    (hcol : 0 ≤ col ∧ col < (((tabs.headD []).headD []).length : Int))
    (hmem : col.toNat < ((tabs.headD []).getD row.toNat []).length)
    (hsh : (st.slides.getD index.toNat default).shapes.find?
        (fun sh => sh.shapeType == msoTable) = some sh)
    (hfault : ¬ (row.toNat < tblRows sh.table ∧ col.toNat < tblCols sh.table)) :
    set_summary_table st index row col x =
      .ok (false, { st with summary_tables := dinsert st.summary_tables index (gridWrite tabs row.toNat col.toNat x) }) ∧
    (((gridWrite tabs row.toNat col.toNat x).headD []).getD row.toNat []).getD col.toNat ""
      = x := by
  refine ⟨?_, cell_after_set tabs row.toNat col.toNat x htabs (by omega) hmem⟩
  have hens : ensureTables st index = .ok (some (), st) := by
    unfold ensureTables
    rw [if_pos (by rw [hcache]; rfl)]
  unfold set_summary_table
  rw [if_neg (not_not_intro hidx), hens]
  simp only [hcache]
  rw [if_neg htabs, if_neg (by omega), if_neg (by omega), if_neg (not_not_intro hmem)]
  simp only [hsh]
  rw [if_neg hfault]
  rfl

/-- C4 witness: writing cell (1, 1) succeeds in memory, faults natively, and
the call reports failure with the mutated cache kept. -/
theorem C4_partial_write_witness :
    set_summary_table c4St 0 1 1 "X" =
      .ok (false, mkState [mkSlide "Layout" [tableShape [["n"]]]]
        [(0, [[["a", "b"], ["c", "X"]]])]) ∧
    (([[["a", "b"], ["c", "X"]]].headD []).getD 1 []).getD 1 "" = "X" :=
  C4_partial_write c4St 0 1 1 "X" [[["a", "b"], ["c", "d"]]] (tableShape [["n"]])
    (by decide) rfl (by decide) (by decide) (by decide) (by decide) rfl (by decide)

/-! Claim C10: memory-only update still reports success. -/

/-- C10: when the cache for a valid slide index is populated and the row and
column are in bounds of the first cached grid, but the native slide has no
table shape at all, `set_summary_table` updates the cached grid, leaves the
native slides untouched, and still returns `true`. -/
theorem C10_memory_only_update (st : PState) (index row col : Int) (x : String)
    (tabs : List (List (List String)))
    (hidx : 0 ≤ index ∧ index < (st.slides.length : Int))
    (hcache : dlookup st.summary_tables index = some tabs)
    (htabs : tabs ≠ [])
    (hrow : 0 ≤ row ∧ row < ((tabs.headD []).length : Int))
    (hcol : 0 ≤ col ∧ col < (((tabs.headD []).headD []).length : Int))
    (hmem : col.toNat < ((tabs.headD []).getD row.toNat []).length)
    (hnone : (st.slides.getD index.toNat default).shapes.find?
        (fun sh => sh.shapeType == msoTable) = none) :
    set_summary_table st index row col x =
      .ok (true, { st with summary_tables := dinsert st.summary_tables index (gridWrite tabs row.toNat col.toNat x) }) ∧
    (((gridWrite tabs row.toNat col.toNat x).headD []).getD row.toNat []).getD col.toNat ""
      = x := by
  refine ⟨?_, cell_after_set tabs row.toNat col.toNat x htabs (by omega) hmem⟩
  have hens : ensureTables st index = .ok (some (), st) := by
    unfold ensureTables
    rw [if_pos (by rw [hcache]; rfl)]
  unfold set_summary_table
  rw [if_neg (not_not_intro hidx), hens]
  simp only [hcache]
  rw [if_neg htabs, if_neg (by omega), if_neg (by omega), if_neg (not_not_intro hmem)]
  simp only [hnone]
  rfl

/-- C10 witness: the memory-only write at cell (0, 1) returns `true`. -/
theorem C10_memory_only_update_witness :
    set_summary_table c10St 0 0 1 "X" =
      .ok (true, mkState [mkSlide "Layout" [textShape "hello"]] [(0, [[["a", "X"]]])]) ∧
    (([[["a", "X"]]].headD []).getD 0 []).getD 1 "" = "X" :=
  C10_memory_only_update c10St 0 0 1 "X" [[["a", "b"]]]
    (by decide) rfl (by decide) (by decide) (by decide) (by decide) rfl

/-! Claim C6: a successful cell write is visible through reads and survives
display calls. -/

/-- Inversion of a successful `set_summary_table`: a `true` result means the
index was valid, a nonempty grid list was cached (after a possible fill), the
row and column were in bounds of its first grid, and the final state caches
the mutated grid list, with the slide count unchanged. -/
theorem set_true_inversion (st : PState) (index row col : Int) (x : String) (st1 : PState)
    (h : set_summary_table st index row col x = .ok (true, st1)) :
    ∃ (stA : PState) (tabs0 : List (List (List String))),
      (0 ≤ index ∧ index < (st.slides.length : Int)) ∧
      stA.slides = st.slides ∧
      tabs0 ≠ [] ∧
      (0 ≤ row ∧ row < ((tabs0.headD []).length : Int)) ∧
      col.toNat < ((tabs0.headD []).getD row.toNat []).length ∧
      st1.summary_tables =
        dinsert stA.summary_tables index (gridWrite tabs0 row.toNat col.toNat x) ∧
      st1.slides.length = st.slides.length := by
  by_cases hval : 0 ≤ index ∧ index < (st.slides.length : Int)
  · unfold set_summary_table at h
    rw [if_neg (not_not_intro hval)] at h
    cases hE : ensureTables st index with
    | error e => rw [hE] at h; simp at h
    | ok p =>
      obtain ⟨o, stA⟩ := p
      cases o with
      | none => rw [hE] at h; simp at h
      | some u =>
        rw [hE] at h
        have hfieldsA := ensure_fields st index (some u) stA hE
        cases hB : dlookup stA.summary_tables index with
        | none => simp only [hB] at h; simp at h
        | some tabs0 =>
          simp only [hB] at h
          by_cases hne : tabs0 = []
          · rw [if_pos hne] at h; simp at h
          · rw [if_neg hne] at h
            by_cases hrow : row < 0 ∨ ((tabs0.headD []).length : Int) ≤ row
            · rw [if_pos hrow] at h; simp at h
            · rw [if_neg hrow] at h
              by_cases hcol : col < 0 ∨ (((tabs0.headD []).headD []).length : Int) ≤ col
              · rw [if_pos hcol] at h; simp at h
              · rw [if_neg hcol] at h
                by_cases hmem : ¬ (col.toNat < ((tabs0.headD []).getD row.toNat []).length)
                · rw [if_pos hmem] at h; simp at h
                · rw [if_neg hmem] at h
                  cases hF : (stA.slides.getD index.toNat default).shapes.find?
                      (fun sh => sh.shapeType == msoTable) with
                  | none =>
                    simp only [hF, Except.ok.injEq, Prod.mk.injEq, true_and] at h
                    subst h
                    refine ⟨stA, tabs0, hval, hfieldsA.1, hne, ?_,
                      not_not.mp hmem, rfl, by rw [hfieldsA.1]⟩
                    push_neg at hrow
                    omega
                  | some sh =>
                    simp only [hF] at h
                    by_cases hfit : row.toNat < tblRows sh.table ∧ col.toNat < tblCols sh.table
                    · rw [if_pos hfit] at h
                      simp only [Except.ok.injEq, Prod.mk.injEq, true_and] at h
                      subst h
                      refine ⟨stA, tabs0, hval, hfieldsA.1, hne, ?_,
                        not_not.mp hmem, rfl, ?_⟩
                      · push_neg at hrow
                        omega
                      · rw [setNativeCell_length, hfieldsA.1]
                    · rw [if_neg hfit] at h
                      simp at h
  · unfold set_summary_table at h
    rw [if_pos hval] at h
    simp at h

/-- C6: after any call to `set_summary_table` that returns `true` with final
state `st1`, reading the table back with `get_summary_table` yields the
cached grid list whose first grid holds the new text at the written cell, the
state effect of a display call on any slide is the identity, and the read
result is unchanged after such a display call. -/
theorem C6_set_then_get (st : PState) (index row col : Int) (x : String) (st1 : PState)
    (h : set_summary_table st index row col x = .ok (true, st1)) :
    (∃ tabs, get_summary_table st1 index = .ok (some tabs, st1) ∧
      ((tabs.headD []).getD row.toNat []).getD col.toNat "" = x) ∧
    (∀ k, show_slide_metadata_state st1 k = st1) ∧
    (∀ k, get_summary_table (show_slide_metadata_state st1 k) index =
      get_summary_table st1 index) := by
  obtain ⟨stA, tabs0, hv, hsl, hne, hrb, hmem, htabs1, hlen⟩ :=
    set_true_inversion st index row col x st1 h
  have hl1 : dlookup st1.summary_tables index =
      some (tabs0.set 0 ((tabs0.headD []).set row.toNat
        (((tabs0.headD []).getD row.toNat []).set col.toNat x))) := by
    rw [htabs1]
    exact dlookup_dinsert_self _ _ _
  have hv1 : 0 ≤ index ∧ index < (st1.slides.length : Int) := by
    rw [hlen]
    exact hv
  refine ⟨⟨_, get_cached st1 index _ hv1 hl1,
      cell_after_set tabs0 row.toNat col.toNat x hne (by omega) hmem⟩, ?_, ?_⟩
  · intro k
    exact show_state_of_cached st1 k (dlookup_ne_nil hl1)
  · intro k
    rw [show_state_of_cached st1 k (dlookup_ne_nil hl1)]

/-- C6 witness: the read-back, display-identity and read-after-display
conclusions at the concrete deck. -/
theorem C6_set_then_get_witness :
    get_summary_table c6St1 0 = .ok (some [[["a", "b"], ["X", "d"]]], c6St1) ∧
    show_slide_metadata_state c6St1 0 = c6St1 ∧
    get_summary_table (show_slide_metadata_state c6St1 0) 0 = get_summary_table c6St1 0 :=
  ⟨rfl, (C6_set_then_get c6St 0 1 0 "X" c6St1 rfl).2.1 0,
   (C6_set_then_get c6St 0 1 0 "X" c6St1 rfl).2.2 0⟩

end PPT
